import Mathlib

/-!
Shallow embedding of `src/security/index.js` (botpress security core).

The module constructor captures a pairing snapshot and configuration once and
exposes `login`, `refreshToken`, `authenticate`, `getUserIdentity` over two
collaborators (Authentication, Cloud).  JavaScript dynamics are modelled with
an explicit value type `JsVal` (the code returns `verified && decoded.user`,
which can be the boolean `false`), the `jsonwebtoken` primitive is modelled
symbolically (`jwtState` maps a token string to its signed structure; `sign`
serialises a structure), and every collaborator or crypto call an operation
performs is recorded in an event trace returned alongside the result.
-/

namespace Botpress

/-- A JavaScript value, as far as this module distinguishes them. -/
inductive JsVal where
  | vStr (s : String)
  | vBool (b : Bool)
  | vNum (n : Int)
  | vNull
  | vUndef
deriving DecidableEq

/-- JavaScript truthiness for the values above. -/
def truthy : JsVal → Bool
  | .vStr s => s ≠ ""
  | .vBool b => b
  | .vNum n => n ≠ 0
  | .vNull => false
  | .vUndef => false

/-- JWT signing algorithm: the code only ever names HS256 and RS256. -/
inductive Alg where
  | HS256
  | RS256
deriving DecidableEq

/-- Key material: the symmetric secret from `authentication.getSecret()` or the
certificate from `cloud.getCertificate()`. -/
inductive Key where
  | symmetric (secretValue : String)
  | certKey (certValue : String)
deriving DecidableEq

/-- Decoded token claims: `user`, `iss`, optional `aud`, optional `exp`,
and the `identity_proof_only` flag (false models absent/falsy). -/
structure Claims where
  user : JsVal
  iss : Option String
  aud : Option String
  exp : Option Nat
  identity_proof_only : Bool
deriving DecidableEq

/-- A signed token: its stated algorithm, the material it verifies against,
and its claims. -/
structure Token where
  alg : Alg
  key : Key
  claims : Claims
deriving DecidableEq

/-- One collaborator or crypto-primitive call made during an operation. -/
inductive Event where
  | attemptCall (ip : String)
  | authenticateCall (user password ip : String)
  | getSecretCall
  | getCertificateCall
  | verifyCall
  | verifyUserCall
  | signCall
deriving DecidableEq

/-- The constructor-time environment: configuration (`securityConfig`), the
pairing snapshot, and the collaborator behaviours.  `jwtState` is the symbolic
`jsonwebtoken` primitive: the token strings it can decode, each to its signed
structure; `sign` serialises a token structure to a string. -/
structure Env where
  tokenExpiry : Nat
  loginEnabled : Bool
  useCloud : Bool
  cloudPaired : Bool
  pairingBotId : Option String
  secret : String
  certificate : String
  attempt : String → Bool
  authenticateUser : String → String → String → JsVal
  verifyUser : Option (Claims → Bool)
  jwtState : String → Option Token
  sign : Token → String
  now : Nat

/-- `const isCloudPaired = useCloud && (await cloud.isPaired())`. -/
def isCloudPaired (env : Env) : Bool := env.useCloud && env.cloudPaired

/-- `const { botId } = (isCloudPaired && cloud.getPairingInfo()) || {}`:
`botId` is undefined unless paired. -/
def effBotId (env : Env) : Option String :=
  if isCloudPaired env then env.pairingBotId else none

/-- JavaScript template-literal interpolation of a possibly-undefined value. -/
def jsTemplate : Option String → String
  | some s => s
  | none => "undefined"

/-- The audience the verifier demands: `urn:bot/${botId}`. -/
def audString (env : Env) : String := "urn:bot/" ++ jsTemplate (effBotId env)

/-- Accumulator form of JavaScript `String.prototype.split(' ')`. -/
def splitSpAux : List Char → List Char → List String
  | [], acc => [String.mk acc.reverse]
  | c :: rest, acc =>
      if c = ' ' then String.mk acc.reverse :: splitSpAux rest []
      else splitSpAux rest (c :: acc)

/-- JavaScript `header.split(' ')`: splits on every space, never empty. -/
def jsSplitSpace (s : String) : List String := splitSpAux s.data []

/-- `jsonwebtoken` expiry check against the ambient clock. -/
def expOk (env : Env) (c : Claims) : Bool :=
  match c.exp with
  | none => true
  | some e => env.now < e

/-- `jwt.verify(token, key, { algorithms: [alg] })`: `none` models a throw
(missing token, unparseable token, wrong algorithm, wrong key, expired). -/
def jwtVerify (env : Env) (tok : Option String) (key : Key) (alg : Alg) :
    Option Claims :=
  match tok with
  | none => none
  | some s =>
    match env.jwtState s with
    | none => none
    | some t =>
      if t.alg = alg ∧ t.key = key ∧ expOk env t.claims = true then some t.claims
      else none

/-- Verification key selected by pairing state (certificate if paired,
symmetric secret otherwise). -/
def verifKey (env : Env) : Key :=
  if isCloudPaired env then Key.certKey env.certificate
  else Key.symmetric env.secret

/-- Verification algorithm selected by pairing state (`RS256` if paired,
`HS256` otherwise). -/
def verifAlg (env : Env) : Alg :=
  if isCloudPaired env then Alg.RS256 else Alg.HS256

/-- The collaborator fetch done while resolving verification material. -/
def verifTrace (env : Env) : List Event :=
  if isCloudPaired env then [Event.getCertificateCall] else [Event.getSecretCall]

/-- `authentication.verifyUser ? await authentication.verifyUser(decoded) : true`,
with the call it makes. -/
def hookResult (env : Env) (c : Claims) : Bool × List Event :=
  match env.verifyUser with
  | some f => (f c, [Event.verifyUserCall])
  | none => (true, [])

/-- The claim set `buildToken` signs: `{ user }` plus issuer `bot.root` and
the configured expiry; note it sets no `aud` claim. -/
def builtClaims (env : Env) (loginUser : JsVal) : Claims :=
  { user := loginUser, iss := some "bot.root", aud := none,
    exp := some (env.now + env.tokenExpiry), identity_proof_only := false }

/-- The token structure `buildToken` signs: always HS256 with the symmetric
secret. -/
def builtToken (env : Env) (loginUser : JsVal) : Token :=
  { alg := Alg.HS256, key := Key.symmetric env.secret,
    claims := builtClaims env loginUser }

/-- `buildToken(loginUser)`: fetch the secret, sign. -/
def buildToken (env : Env) (loginUser : JsVal) : String × List Event :=
  (env.sign (builtToken env loginUser), [Event.getSecretCall, Event.signCall])

/-- The two throw sites of `authenticateWithError`. -/
inductive AuthError where
  | wrongScheme (scheme : String)
  | tokenInvalid
deriving DecidableEq

/-- The `message` property of each thrown error. -/
def AuthError.message : AuthError → String
  | .wrongScheme s => "Wrong scheme " ++ s ++ ", expected Bearer"
  | .tokenInvalid => "The token is invalid or expired"

/-- Failure thrown by the raw `jwt.verify` primitive (uncaught in
`getUserIdentity`). -/
inductive JwtError where
  | verifyFailed
deriving DecidableEq

/-- Discriminated result of `login` / `refreshToken`. -/
inductive LoginResult where
  | success (token : String)
  | failure (reason : String)
deriving DecidableEq

/-- `refreshToken` result; in passthrough mode the echoed token can be the
undefined second split segment. -/
inductive RefreshResult where
  | success (token : Option String)
  | failure (reason : String)
deriving DecidableEq

/-- `authenticateWithError(authHeader)`: split the header on spaces, demand the
`Bearer` scheme, resolve material by pairing state, verify, run the optional
hook, then reject proof-only tokens and audience mismatches by returning
`false`; any throw inside the try block becomes `tokenInvalid`. -/
def authenticateWithError (env : Env) (authHeader : String) :
    Except AuthError JsVal × List Event :=
  let parts := jsSplitSpace authHeader
  let scheme := parts.headD ""
  let token := parts[1]?
  if scheme ≠ "Bearer" then (Except.error (AuthError.wrongScheme scheme), [])
  else
    match jwtVerify env token (verifKey env) (verifAlg env) with
    | none => (Except.error AuthError.tokenInvalid, verifTrace env ++ [Event.verifyCall])
    | some decoded =>
      let verified := (hookResult env decoded).1
      let result :=
        if decoded.identity_proof_only then JsVal.vBool false
        else if decoded.aud ≠ some (audString env) then JsVal.vBool false
        else if verified then decoded.user else JsVal.vBool false
      (Except.ok result,
       verifTrace env ++ [Event.verifyCall] ++ (hookResult env decoded).2)

/-- `authenticate(authHeader)`: the lenient adapter — any throw collapses to
the boolean `false`. -/
def authenticate (env : Env) (authHeader : String) : JsVal :=
  match (authenticateWithError env authHeader).1 with
  | Except.ok user => user
  | Except.error _ => JsVal.vBool false

/-- `getUserIdentity(token)`: raw token (no header split), same material
selection, verify (uncaught on failure), hook, audience check — but no
proof-only rejection. -/
def getUserIdentity (env : Env) (token : String) : Except JwtError JsVal :=
  match jwtVerify env (some token) (verifKey env) (verifAlg env) with
  | none => Except.error JwtError.verifyFailed
  | some decoded =>
    let verified := (hookResult env decoded).1
    if decoded.aud ≠ some (audString env) then Except.ok (JsVal.vBool false)
    else Except.ok (if verified then decoded.user else JsVal.vBool false)

/-- `login(user, password, ip)`: paired short-circuit, throttle gate,
credential check, then token issuance or the generic bad-credentials reason. -/
def login (env : Env) (user password ip : String) : LoginResult × List Event :=
  if isCloudPaired env then
    (LoginResult.failure
      "Root authentication is disabled when using Botpress Cloud [BPCLOUDERR]", [])
  else if env.attempt ip = false then
    (LoginResult.failure "Too many login attempts. Try again later.",
     [Event.attemptCall ip])
  else if truthy (env.authenticateUser user password ip) then
    (LoginResult.success (buildToken env (env.authenticateUser user password ip)).1,
     [Event.attemptCall ip, Event.authenticateCall user password ip]
       ++ (buildToken env (env.authenticateUser user password ip)).2)
  else
    (LoginResult.failure "Bad username / password",
     [Event.attemptCall ip, Event.authenticateCall user password ip])

/-- `refreshToken(authHeader)`: passthrough when login is disabled (scheme
check only, echo the second split segment); otherwise re-authenticate and
re-issue, converting any throw to `{success:false, reason: err.message || …}`. -/
def refreshToken (env : Env) (authHeader : String) : RefreshResult × List Event :=
  if env.loginEnabled = false then
    let parts := jsSplitSpace authHeader
    let scheme := parts.headD ""
    if scheme ≠ "Bearer" then
      (RefreshResult.failure ("Wrong scheme " ++ scheme ++ ", expected Bearer"), [])
    else
      (RefreshResult.success parts[1]?, [])
  else
    match (authenticateWithError env authHeader).1 with
    | Except.ok loginUser =>
        (RefreshResult.success (some (buildToken env loginUser).1),
         (authenticateWithError env authHeader).2 ++ (buildToken env loginUser).2)
    | Except.error err =>
        (RefreshResult.failure
          (if err.message = "" then "The token is invalid or expired" else err.message),
         (authenticateWithError env authHeader).2)

deriving instance DecidableEq for Except

/-! ## Concrete instantiations used to witness the theorems -/

/-- Unpaired deployment with login enabled: secret `s3cr3t`, no bot bound,
credential collaborator accepting `("admin","pw")`, and a one-token symbolic
JWT world where signing yields the string `T` decoding back to the exact
structure `buildToken` produces for principal `"admin"`. -/
def envBase : Env :=
  { tokenExpiry := 3600, loginEnabled := true, useCloud := false,
    cloudPaired := false, pairingBotId := none,
    secret := "s3cr3t", certificate := "certpem",
    attempt := fun _ => true,
    authenticateUser := fun u p _ =>
      if u = "admin" ∧ p = "pw" then JsVal.vStr "admin" else JsVal.vNull,
    verifyUser := none,
    jwtState := fun s =>
      if s = "T" then
        some { alg := Alg.HS256, key := Key.symmetric "s3cr3t",
               claims := { user := JsVal.vStr "admin", iss := some "bot.root",
                           aud := none, exp := some 3600,
                           identity_proof_only := false } }
      else none,
    sign := fun _ => "T",
    now := 0 }

/-- `envBase` with login globally disabled. -/
def envDisabled : Env := { envBase with loginEnabled := false }

/-- `envBase` paired to the cloud. -/
def envPaired : Env := { envBase with useCloud := true, cloudPaired := true }

/-! ## Claim theorems -/

/-- C1 (code_bug evidence): while unpaired, with the throttle permitting and
the credential collaborator accepting `("admin","pw","1.2.3.4")`, `login`
succeeds and returns the freshly signed token `T` — but `authenticate` on
`"Bearer T"` returns the boolean `false` instead of the principal, because
the issued claims carry no `aud` while the verifier demands
`urn:bot/undefined`.  The spec's round-trip guarantee fails on the code. -/
theorem C1_roundtrip_failing :
    (login envBase "admin" "pw" "1.2.3.4").1 = LoginResult.success "T"
    ∧ authenticate envBase "Bearer T" = JsVal.vBool false
    ∧ (builtToken envBase (JsVal.vStr "admin")).claims.aud = none
    ∧ audString envBase = "urn:bot/undefined" := by decide

/-- C2: with login enabled, whenever `authenticateWithError` rejects the
presented header by throwing, `refreshToken` returns `success:false` whose
reason is the underlying failure's message (and that message is never empty,
so the `err.message || …` fallback is satisfied); it never returns success. -/
theorem C2_refresh_rejected_token (env : Env) (authHeader : String) (err : AuthError)
    (hEnabled : env.loginEnabled = true)
    (hrej : (authenticateWithError env authHeader).1 = Except.error err) :
    (refreshToken env authHeader).1 = RefreshResult.failure err.message
    ∧ err.message ≠ "" := by
  have hne : err.message ≠ "" := by
    cases err with
    | wrongScheme s =>
      intro hcontra
      have hcontra' : "Wrong scheme " ++ s ++ ", expected Bearer" = "" := hcontra
      have hlen := congrArg String.length hcontra'
      rw [String.length_append, String.length_append] at hlen
      have h13 : ("Wrong scheme ").length = 13 := rfl
      have h17 : (", expected Bearer").length = 17 := rfl
      have h0 : ("" : String).length = 0 := rfl
      omega
    | tokenInvalid => simp [AuthError.message]
  refine ⟨?_, hne⟩
  cases hA : authenticateWithError env authHeader with
  | mk r tr =>
    rw [hA] at hrej
    simp only at hrej
    subst hrej
    simp [refreshToken, hEnabled, hA, hne]

/-- Witness for C2 at a concrete non-Bearer header. -/
theorem C2_witness :
    (refreshToken envBase "Basic T").1 =
      RefreshResult.failure (AuthError.wrongScheme "Basic").message
    ∧ (AuthError.wrongScheme "Basic").message ≠ "" :=
  C2_refresh_rejected_token envBase "Basic T" (AuthError.wrongScheme "Basic")
    rfl (by decide)

/-- C3 counterexample: `getUserIdentity` does NOT collapse every internal
failure to the boolean false — on a token the signature primitive rejects it
propagates the throw (models the missing try/catch around `jwt.verify`). -/
theorem C3_counterexample :
    getUserIdentity envBase "garbage" = Except.error JwtError.verifyFailed
    ∧ getUserIdentity envBase "garbage" ≠ Except.ok (JsVal.vBool false) := by
  decide

/-- C3 (amended): `authenticate` never throws — it either collapses a failure
to the boolean false or returns exactly what the strict variant returned; but
`getUserIdentity` propagates `jwt.verify` failures (bad signature, wrong
algorithm, expiry) as thrown errors. -/
theorem C3_amended_no_throw (env : Env) (authHeader tok : String)
    (hbad : jwtVerify env (some tok) (verifKey env) (verifAlg env) = none) :
    (authenticate env authHeader = JsVal.vBool false
      ∨ (authenticateWithError env authHeader).1 = Except.ok (authenticate env authHeader))
    ∧ getUserIdentity env tok = Except.error JwtError.verifyFailed := by
  constructor
  · cases h : (authenticateWithError env authHeader).1 with
    | error e => exact Or.inl (by simp [authenticate, h])
    | ok u => exact Or.inr (by simp [authenticate, h])
  · simp [getUserIdentity, hbad]

/-- Witness for C3's amended statement. -/
theorem C3_amended_witness :
    (authenticate envBase "Basic T" = JsVal.vBool false
      ∨ (authenticateWithError envBase "Basic T").1 =
          Except.ok (authenticate envBase "Basic T"))
    ∧ getUserIdentity envBase "garbage2" = Except.error JwtError.verifyFailed :=
  C3_amended_no_throw envBase "Basic T" "garbage2" (by decide)

/-- C4: verification uses exactly the one algorithm implied by pairing state
(RS256 paired, HS256 unpaired); a decodable token whose stated algorithm
differs — even one signed with material the verifier holds — is rejected by
all three entry points. -/
theorem C4_algorithm_confinement (env : Env) (authHeader tokStr : String)
    (rest : List String) (t : Token)
    (hsplit : jsSplitSpace authHeader = "Bearer" :: tokStr :: rest)
    (hstate : env.jwtState tokStr = some t)
    (halg : t.alg ≠ (if isCloudPaired env then Alg.RS256 else Alg.HS256)) :
    (authenticateWithError env authHeader).1 = Except.error AuthError.tokenInvalid
    ∧ authenticate env authHeader = JsVal.vBool false
    ∧ getUserIdentity env tokStr = Except.error JwtError.verifyFailed := by
  have halg' : t.alg ≠ verifAlg env := by rw [verifAlg]; exact halg
  have hv : jwtVerify env (some tokStr) (verifKey env) (verifAlg env) = none := by
    simp only [jwtVerify, hstate]
    rw [if_neg]
    rintro ⟨ha, -, -⟩
    exact halg' ha
  have h1 : (authenticateWithError env authHeader).1
      = Except.error AuthError.tokenInvalid := by
    simp [authenticateWithError, hsplit, hv]
  exact ⟨h1, by simp [authenticate, h1], by simp [getUserIdentity, hv]⟩

/-- An RS256-stated token in an unpaired world (which expects HS256). -/
def tokC4 : Token :=
  { alg := Alg.RS256, key := Key.symmetric "s3cr3t",
    claims := { user := JsVal.vStr "admin", iss := some "bot.root",
                aud := some "urn:bot/undefined", exp := some 3600,
                identity_proof_only := false } }

/-- `envBase` whose JWT world decodes `R` to the RS256 token. -/
def envC4 : Env :=
  { envBase with jwtState := fun s => if s = "R" then some tokC4 else none }

/-- Witness for C4. -/
theorem C4_witness :
    (authenticateWithError envC4 "Bearer R").1 = Except.error AuthError.tokenInvalid
    ∧ authenticate envC4 "Bearer R" = JsVal.vBool false
    ∧ getUserIdentity envC4 "R" = Except.error JwtError.verifyFailed :=
  C4_algorithm_confinement envC4 "Bearer R" "R" [] tokC4 (by decide) (by decide)
    (by decide)

/-- C5: a verifiable token carrying `identity_proof_only: true` is rejected by
`authenticateWithError` (resolves to false, no principal) and by
`authenticate`; `getUserIdentity` ignores the flag entirely — its result
depends only on the audience check, the optional hook, and the `user` claim. -/
theorem C5_proof_only_tokens (env : Env) (authHeader tokStr : String)
    (rest : List String) (t : Token)
    (hsplit : jsSplitSpace authHeader = "Bearer" :: tokStr :: rest)
    (hstate : env.jwtState tokStr = some t)
    (halg : t.alg = verifAlg env) (hkey : t.key = verifKey env)
    (hexp : expOk env t.claims = true)
    (hflag : t.claims.identity_proof_only = true) :
    (authenticateWithError env authHeader).1 = Except.ok (JsVal.vBool false)
    ∧ authenticate env authHeader = JsVal.vBool false
    ∧ getUserIdentity env tokStr =
        Except.ok (if t.claims.aud ≠ some (audString env) then JsVal.vBool false
          else if (hookResult env t.claims).1 then t.claims.user
          else JsVal.vBool false) := by
  have hv : jwtVerify env (some tokStr) (verifKey env) (verifAlg env)
      = some t.claims := by
    simp only [jwtVerify, hstate]
    rw [if_pos ⟨halg, hkey, hexp⟩]
  have h1 : (authenticateWithError env authHeader).1
      = Except.ok (JsVal.vBool false) := by
    simp [authenticateWithError, hsplit, hv, hflag]
  refine ⟨h1, by simp [authenticate, h1], ?_⟩
  by_cases haud : t.claims.aud = some (audString env)
  · simp [getUserIdentity, hv, haud]
  · simp [getUserIdentity, hv, haud]

/-- A proof-only token that otherwise verifies in the unpaired world. -/
def tokC5 : Token :=
  { alg := Alg.HS256, key := Key.symmetric "s3cr3t",
    claims := { user := JsVal.vStr "admin", iss := some "bot.root",
                aud := some "urn:bot/undefined", exp := some 3600,
                identity_proof_only := true } }

/-- `envBase` whose JWT world decodes `P` to the proof-only token. -/
def envC5 : Env :=
  { envBase with jwtState := fun s => if s = "P" then some tokC5 else none }

/-- Witness for C5: the session paths reject the proof-only token while
`getUserIdentity` extracts the identity. -/
theorem C5_witness :
    (authenticateWithError envC5 "Bearer P").1 = Except.ok (JsVal.vBool false)
    ∧ authenticate envC5 "Bearer P" = JsVal.vBool false
    ∧ getUserIdentity envC5 "P" = Except.ok (JsVal.vStr "admin") := by
  have h := C5_proof_only_tokens envC5 "Bearer P" "P" [] tokC5 (by decide)
    (by decide) (by decide) (by decide) (by decide) (by decide)
  exact ⟨h.1, h.2.1, h.2.2.trans (by decide)⟩

/-- C6: while paired, `login` fails immediately with the fixed
root-login-disabled reason and its call trace is empty — neither the throttle
gate nor the credential collaborator is invoked, for any input. -/
theorem C6_paired_root_login_disabled (env : Env) (user password ip : String)
    (hpaired : isCloudPaired env = true) :
    login env user password ip =
      (LoginResult.failure
        "Root authentication is disabled when using Botpress Cloud [BPCLOUDERR]",
       []) := by
  simp [login, hpaired]

/-- Witness for C6 in a paired environment. -/
theorem C6_witness :
    login envPaired "admin" "pw" "1.2.3.4" =
      (LoginResult.failure
        "Root authentication is disabled when using Botpress Cloud [BPCLOUDERR]",
       []) :=
  C6_paired_root_login_disabled envPaired "admin" "pw" "1.2.3.4" (by decide)

/-- C7: with login globally disabled, `refreshToken` is a pure passthrough:
a header whose first space-separated part is `Bearer` is answered with
success echoing the second split segment, any other first part with the
scheme-error reason; in both cases the call trace is empty — no collaborator
I/O and no cryptographic verification or signing. -/
theorem C7_disabled_passthrough (env : Env) (authHeader : String)
    (hdisabled : env.loginEnabled = false) :
    ((jsSplitSpace authHeader).headD "" = "Bearer" →
      refreshToken env authHeader =
        (RefreshResult.success (jsSplitSpace authHeader)[1]?, []))
    ∧ ((jsSplitSpace authHeader).headD "" ≠ "Bearer" →
      refreshToken env authHeader =
        (RefreshResult.failure
          ("Wrong scheme " ++ (jsSplitSpace authHeader).headD "" ++ ", expected Bearer"),
         [])) := by
  constructor
  · intro hs
    rw [List.headD_eq_head?] at hs
    simp [refreshToken, hdisabled, hs]
  · intro hs
    rw [List.headD_eq_head?] at hs
    simp [refreshToken, hdisabled, hs]

/-- Witness for C7 on a Bearer and a non-Bearer header. -/
theorem C7_witness :
    refreshToken envDisabled "Bearer T" = (RefreshResult.success (some "T"), [])
    ∧ refreshToken envDisabled "Basic T" =
        (RefreshResult.failure "Wrong scheme Basic, expected Bearer", []) := by
  constructor
  · exact ((C7_disabled_passthrough envDisabled "Bearer T" rfl).1 (by decide)).trans
      (by decide)
  · exact ((C7_disabled_passthrough envDisabled "Basic T" rfl).2 (by decide)).trans
      (by decide)

/-- C8: while unpaired and not throttled, any two login attempts the
credential collaborator rejects — wrong username, wrong password, or both —
produce the identical generic failure reason. -/
theorem C8_credential_failure_indistinguishable (env : Env)
    (u1 p1 u2 p2 ip : String)
    (hunpaired : isCloudPaired env = false)
    (hattempt : env.attempt ip = true)
    (h1 : truthy (env.authenticateUser u1 p1 ip) = false)
    (h2 : truthy (env.authenticateUser u2 p2 ip) = false) :
    (login env u1 p1 ip).1 = LoginResult.failure "Bad username / password"
    ∧ (login env u1 p1 ip).1 = (login env u2 p2 ip).1 := by
  have e1 : (login env u1 p1 ip).1 = LoginResult.failure "Bad username / password" := by
    simp [login, hunpaired, hattempt, h1]
  have e2 : (login env u2 p2 ip).1 = LoginResult.failure "Bad username / password" := by
    simp [login, hunpaired, hattempt, h2]
  exact ⟨e1, e1.trans e2.symm⟩

/-- Witness for C8: wrong password vs wrong username give the same reason. -/
theorem C8_witness :
    (login envBase "admin" "wrongpw" "1.2.3.4").1 =
      LoginResult.failure "Bad username / password"
    ∧ (login envBase "admin" "wrongpw" "1.2.3.4").1 =
        (login envBase "nobody" "pw" "1.2.3.4").1 :=
  C8_credential_failure_indistinguishable envBase "admin" "wrongpw" "nobody" "pw"
    "1.2.3.4" (by decide) (by decide) (by decide) (by decide)

/-- C9: a verifiable token that `authenticateWithError` rejects by resolving
to `false` (proof-only flag, audience mismatch, or a false
identity-verification hook) does not throw; with login enabled,
`refreshToken` then treats that `false` as the principal and returns success
with a freshly signed token whose `user` claim is the boolean `false`. -/
theorem C9_false_principal_refresh (env : Env) (authHeader tokStr : String)
    (rest : List String) (t : Token)
    (hEnabled : env.loginEnabled = true)
    (hsplit : jsSplitSpace authHeader = "Bearer" :: tokStr :: rest)
    (hstate : env.jwtState tokStr = some t)
    (halg : t.alg = verifAlg env) (hkey : t.key = verifKey env)
    (hexp : expOk env t.claims = true)
    (hrej : t.claims.identity_proof_only = true
        ∨ t.claims.aud ≠ some (audString env)
        ∨ (hookResult env t.claims).1 = false) :
    (authenticateWithError env authHeader).1 = Except.ok (JsVal.vBool false)
    ∧ (refreshToken env authHeader).1 =
        RefreshResult.success (some (env.sign
          { alg := Alg.HS256, key := Key.symmetric env.secret,
            claims := { user := JsVal.vBool false, iss := some "bot.root",
                        aud := none, exp := some (env.now + env.tokenExpiry),
                        identity_proof_only := false } })) := by
  have hv : jwtVerify env (some tokStr) (verifKey env) (verifAlg env)
      = some t.claims := by
    simp only [jwtVerify, hstate]
    rw [if_pos ⟨halg, hkey, hexp⟩]
  have h1 : (authenticateWithError env authHeader).1
      = Except.ok (JsVal.vBool false) := by
    rcases hrej with hf | haud | hhook
    · simp [authenticateWithError, hsplit, hv, hf]
    · simp [authenticateWithError, hsplit, hv, haud]
    · simp [authenticateWithError, hsplit, hv, hhook]
  refine ⟨h1, ?_⟩
  cases hA : authenticateWithError env authHeader with
  | mk r tr =>
    rw [hA] at h1
    simp only at h1
    subst h1
    simp [refreshToken, hEnabled, hA, buildToken, builtToken, builtClaims]

/-- A proof-only token used to drive the false-resolution path of C9. -/
def tokC9 : Token :=
  { alg := Alg.HS256, key := Key.symmetric "s3cr3t",
    claims := { user := JsVal.vStr "someone", iss := some "bot.root",
                aud := none, exp := some 3600, identity_proof_only := true } }

/-- `envBase` whose JWT world decodes `Q` to that token. -/
def envC9 : Env :=
  { envBase with jwtState := fun s => if s = "Q" then some tokC9 else none }

/-- Witness for C9: refreshing a rejected-but-not-thrown token succeeds with
a fresh token signed over `user = false`. -/
theorem C9_witness :
    (authenticateWithError envC9 "Bearer Q").1 = Except.ok (JsVal.vBool false)
    ∧ (refreshToken envC9 "Bearer Q").1 = RefreshResult.success (some "T") := by
  have h := C9_false_principal_refresh envC9 "Bearer Q" "Q" [] tokC9 rfl
    (by decide) (by decide) (by decide) (by decide) (by decide)
    (Or.inl (by decide))
  exact ⟨h.1, h.2.trans (by decide)⟩

/-- C10: header parsing splits on every space — for a header with two or more
spaces only the segment between the first and second space is the token:
disabled-mode `refreshToken` echoes exactly that middle segment, and
`authenticateWithError` behaves identically to a header holding only the
scheme and that middle segment (the tail is silently discarded). -/
theorem C10_header_split_discards_tail (env : Env)
    (authHeader authHeader2 firstTok secondTok : String) (rest : List String)
    (hdisabled : env.loginEnabled = false)
    (hsplit : jsSplitSpace authHeader = "Bearer" :: firstTok :: secondTok :: rest)
    (hsplit2 : jsSplitSpace authHeader2 = ["Bearer", firstTok]) :
    (refreshToken env authHeader).1 = RefreshResult.success (some firstTok)
    ∧ authenticateWithError env authHeader = authenticateWithError env authHeader2 := by
  constructor
  · simp [refreshToken, hdisabled, hsplit]
  · simp [authenticateWithError, hsplit, hsplit2]

/-- Witness for C10: `"Bearer abc def"` behaves as `"Bearer abc"` and the
passthrough echoes only `abc`. -/
theorem C10_witness :
    (refreshToken envDisabled "Bearer abc def").1 = RefreshResult.success (some "abc")
    ∧ authenticateWithError envDisabled "Bearer abc def" =
        authenticateWithError envDisabled "Bearer abc" :=
  C10_header_split_discards_tail envDisabled "Bearer abc def" "Bearer abc" "abc"
    "def" [] rfl (by decide) (by decide)

end Botpress
